import Mathlib

/-!
Shallow embedding of `main.go` from glensargent/go-blockchain.

The Go program keeps a global `Blockchain []Block` and exposes HTTP handlers
over it.  Here the global is passed explicitly: a handler becomes a function
from the current chain (plus the decoded request data and the `time.Now()`
timestamp, which are its nondeterministic inputs) to the new chain and the
HTTP response.  SHA-256 itself is kept abstract: every definition is
parametric in `sha : String → String`, standing for the hex-encoded SHA-256
digest of a byte string.  All chain-shape reasoning below is independent of
`sha`; the one place where the program's behaviour depends on properties of
the digest (tamper detection) states those properties as explicit hypotheses.

The transport-only plumbing (`InitServer`, `MakeRouter`, `GetBlockchain`,
request decoding, `godotenv`, logging with `spew.Dump`) is not modelled; the
claims are about the chain-integrity core and the `WriteBlockchain` handler
after a successful decode of the request body.
-/

/-- Model of `Block` (main.go lines 19-25), with the source's field order:
Index, Timestamp, Data, Hash, PrevHash.  Go `int` fields become `Int`,
Go `string` fields become `String`. -/
structure Block where
  Index : Int
  Timestamp : String
  Data : Int
  Hash : String
  PrevHash : String
deriving Repr, DecidableEq

/-- Go's conversion `string(i)` of an integer to a string, as used in
`GenerateHash` (main.go line 53).  By the Go specification it yields the
one-character string holding the code point `i`, and every integer that is
not a valid code point (negative, a surrogate in 0xD800-0xDFFF, or above
0x10FFFF) yields the replacement character U+FFFD.  Go produces the UTF-8
bytes of that character; since UTF-8 is injective on character sequences,
working at the character level is faithful for hash-input comparison. -/
def goRuneChar (i : Int) : Char :=
  if 0 ≤ i ∧ (i < 0xD800 ∨ (0xDFFF < i ∧ i < 0x110000)) then Char.ofNat i.toNat
  else Char.ofNat 0xFFFD

/-- The string `string(i)` of `goRuneChar`: always exactly one character. -/
def goIntToString (i : Int) : String :=
  String.mk [goRuneChar i]

/-- Model of `GenerateHash` (main.go lines 52-58): `record` is
`string(block.Index) + block.Timestamp + string(block.Data) + block.PrevHash`
and the result is the hex-encoded SHA-256 digest of `record`, modelled by the
parameter `sha`.  The stored `Hash` field is not part of the hash input. -/
def GenerateHash (sha : String → String) (block : Block) : String :=
  let record := goIntToString block.Index ++ block.Timestamp ++
    goIntToString block.Data ++ block.PrevHash
  sha record

/-- Model of `GenerateBlock` (main.go lines 61-71).  `t` stands for the
`time.Now().String()` timestamp taken inside the function.  The Go function
returns `(Block, error)` where the error result is the literal `nil`,
modelled as `none`.  The `Hash` field is computed by `GenerateHash` from the
other fields after they are set (in the Go code the zero value `""` is still
in the `Hash` field at that point; `GenerateHash` ignores it either way). -/
def GenerateBlock (sha : String → String) (prevBlock : Block) (Data : Int) (t : String) :
    Block × Option String :=
  let newBlock : Block :=
    { Index := prevBlock.Index + 1, Timestamp := t, Data := Data,
      Hash := "", PrevHash := prevBlock.Hash }
  ({ newBlock with Hash := GenerateHash sha newBlock }, none)

/-- Model of `ValidateBlock` (main.go lines 74-88): the three checks in
source order, each returning `false` on failure. -/
def ValidateBlock (sha : String → String) (prevBlock newBlock : Block) : Bool :=
  if prevBlock.Index + 1 ≠ newBlock.Index then false
  else if prevBlock.Hash ≠ newBlock.PrevHash then false
  else if GenerateHash sha newBlock ≠ newBlock.Hash then false
  else true

/-- Model of `ReplaceChain` (main.go lines 91-95).  The Go function mutates
the global `Blockchain` and returns no value; here the current chain is the
second argument and the (possibly) updated chain is the result. -/
def ReplaceChain (newBlocks : List Block) (chain : List Block) : List Block :=
  if newBlocks.length > chain.length then newBlocks else chain

/-- The genesis block built in `main` (main.go line 43):
`Block{0, t.String(), 0, "", ""}`, i.e. Index 0, the current timestamp,
Data 0, Hash `""`, PrevHash `""`. -/
def genesisBlock (t : String) : Block :=
  { Index := 0, Timestamp := t, Data := 0, Hash := "", PrevHash := "" }

/-- The chain right after initialisation (main.go lines 41-46): the genesis
block appended to the initially empty `Blockchain`. -/
def initialBlockchain (t : String) : List Block :=
  [] ++ [genesisBlock t]

/-- HTTP status `http.StatusCreated`. -/
def StatusCreated : Nat := 201

/-- HTTP status `http.StatusInternalServerError`. -/
def StatusInternalServerError : Nat := 500

/-- A response body serialized by `RespondWithJSON`: either a `Block`
(main.go line 164) or the decoded `Message` carrying the posted integer
(main.go line 154). -/
inductive HTTPBody where
  | blockBody (b : Block)
  | messageBody (d : Int)
deriving Repr, DecidableEq

/-- Model of `RespondWithJSON` (main.go lines 168-179): the response is the
status code together with the serialized payload.  `json.MarshalIndent`
cannot fail on `Block` or `Message` values, so the internal 500
marshal-error branch is unreachable for the payloads this program passes. -/
def RespondWithJSON (code : Nat) (payload : HTTPBody) : Nat × HTTPBody :=
  (code, payload)

/-- Model of `WriteBlockchain` (main.go lines 141-165) after a successful
decode of the request body into `Message` with `Data = d` (the
`StatusBadRequest` path for a malformed body is outside this model).
`Blockchain[len(Blockchain)-1]` is the last element of the chain; on an
empty chain the Go expression panics with an index-out-of-range, modelled
as `none`.  The result is the new chain together with the HTTP response. -/
def WriteBlockchain (sha : String → String) (chain : List Block) (d : Int) (t : String) :
    Option (List Block × Nat × HTTPBody) :=
  match chain.getLast? with
  | none => none
  | some prevBlock =>
    match GenerateBlock sha prevBlock d t with
    | (_, some _) => some (chain, RespondWithJSON StatusInternalServerError (HTTPBody.messageBody d))
    | (newBlock, none) =>
      let chain' := if ValidateBlock sha prevBlock newBlock
        then ReplaceChain (chain ++ [newBlock]) chain
        else chain
      some (chain', RespondWithJSON StatusCreated (HTTPBody.blockBody newBlock))

/-- The append path of `WriteBlockchain` (main.go lines 158-162), realising
the spec's `tryAppend`: validate the candidate against the current tail and,
on success, append it (via `ReplaceChain`, exactly as the handler does).
The returned `Bool` is the value of the `ValidateBlock` test that selects
the branch; the Go handler itself returns no value. -/
def tryAppend (sha : String → String) (chain : List Block) (candidate : Block) :
    List Block × Bool :=
  match chain.getLast? with
  | none => (chain, false)
  | some prevBlock =>
    if ValidateBlock sha prevBlock candidate
      then (ReplaceChain (chain ++ [candidate]) chain, true)
      else (chain, false)

/-- The per-link invariant of the spec's data model for a non-genesis block
`b` with predecessor `p`. -/
def validLink (sha : String → String) (p b : Block) : Prop :=
  b.Index = p.Index + 1 ∧ b.PrevHash = p.Hash ∧ b.Hash = GenerateHash sha b

/-- The chain invariant: every adjacent pair of blocks is a valid link. -/
def chainInvariant (sha : String → String) (chain : List Block) : Prop :=
  List.Chain' (validLink sha) chain

/-- Chain states reachable from initialisation (main.go lines 41-46) through
the program's only mutating operation, the `WriteBlockchain` handler (which
is also the only caller of `ReplaceChain`). -/
inductive Reachable (sha : String → String) : List Block → Prop where
  | init (t : String) : Reachable sha (initialBlockchain t)
  | step (chain chain' : List Block) (d : Int) (t : String) (resp : Nat × HTTPBody) :
      Reachable sha chain →
      WriteBlockchain sha chain d t = some (chain', resp) →
      Reachable sha chain'

/-- The `Hash` field is not an input of `GenerateHash`. -/
lemma generateHash_set_hash (sha : String → String) (b : Block) (h : String) :
    GenerateHash sha { b with Hash := h } = GenerateHash sha b := rfl

/-- Characterisation of `ValidateBlock`: it returns `true` exactly when the
continuity, linkage and self-consistency checks all hold. -/
lemma validateBlock_eq_true_iff (sha : String → String) (prevBlock newBlock : Block) :
    ValidateBlock sha prevBlock newBlock = true ↔
      (newBlock.Index = prevBlock.Index + 1 ∧ newBlock.PrevHash = prevBlock.Hash ∧
        GenerateHash sha newBlock = newBlock.Hash) := by
  simp only [ValidateBlock]
  split_ifs with h1 h2 h3
  · simp only [Bool.false_eq_true, false_iff]
    intro hc
    exact h1 hc.1.symm
  · simp only [Bool.false_eq_true, false_iff]
    intro hc
    exact h2 hc.2.1.symm
  · simp only [Bool.false_eq_true, false_iff]
    intro hc
    exact h3 hc.2.2
  · simp only [true_iff]
    exact ⟨(not_not.mp h1).symm, (not_not.mp h2).symm, not_not.mp h3⟩

/-- Appending one block to a chain always makes it strictly longer, so
`ReplaceChain` keeps the appended chain. -/
lemma replaceChain_append_one (chain : List Block) (b : Block) :
    ReplaceChain (chain ++ [b]) chain = chain ++ [b] := by
  have h : chain.length < (chain ++ [b]).length := by simp
  simp [ReplaceChain, h]

/-- C1: for every block P and integer payload p (and any timestamp), the
block returned by `GenerateBlock(P, p)` satisfies
`ValidateBlock(P, B) = true`. -/
theorem generateBlock_validates (sha : String → String) (prevBlock : Block)
    (Data : Int) (t : String) :
    ValidateBlock sha prevBlock (GenerateBlock sha prevBlock Data t).1 = true := by
  rw [validateBlock_eq_true_iff]
  exact ⟨rfl, rfl, rfl⟩

/-- C3: `ValidateBlock(predecessor, candidate)` returns `true` if and only
if the candidate's index is the predecessor's plus one, the candidate's
`PrevHash` is the predecessor's stored `Hash`, and `GenerateHash` of the
candidate equals its stored `Hash`; it returns `false` whenever any of the
three fails.  (The embedding is a pure function, as is the Go function:
both `Block` arguments are passed by value and never written.) -/
theorem validateBlock_characterisation (sha : String → String) (prevBlock newBlock : Block) :
    ValidateBlock sha prevBlock newBlock = true ↔
      (newBlock.Index = prevBlock.Index + 1 ∧ newBlock.PrevHash = prevBlock.Hash ∧
        GenerateHash sha newBlock = newBlock.Hash) :=
  validateBlock_eq_true_iff sha prevBlock newBlock

/-- C6: `GenerateBlock` always returns a `nil` error, and the returned block
has index `P.Index + 1`, the given timestamp and payload, `PrevHash` equal
to the predecessor's stored `Hash`, and `Hash` equal to `GenerateHash`
applied to the new block's own fields. -/
theorem generateBlock_fields (sha : String → String) (prevBlock : Block)
    (Data : Int) (t : String) :
    (GenerateBlock sha prevBlock Data t).2 = none ∧
    (GenerateBlock sha prevBlock Data t).1.Index = prevBlock.Index + 1 ∧
    (GenerateBlock sha prevBlock Data t).1.Timestamp = t ∧
    (GenerateBlock sha prevBlock Data t).1.Data = Data ∧
    (GenerateBlock sha prevBlock Data t).1.PrevHash = prevBlock.Hash ∧
    (GenerateBlock sha prevBlock Data t).1.Hash =
      GenerateHash sha (GenerateBlock sha prevBlock Data t).1 :=
  ⟨rfl, rfl, rfl, rfl, rfl, rfl⟩

/-- C5: `ReplaceChain` leaves the chain unchanged when the candidate chain
is not strictly longer than the current chain, and replaces the chain with
the candidate when the candidate is strictly longer.  (The Go function
returns no value; the chain behaviour is what is stated here.) -/
theorem replaceChain_policy (newBlocks chain : List Block) :
    (newBlocks.length ≤ chain.length → ReplaceChain newBlocks chain = chain) ∧
    (chain.length < newBlocks.length → ReplaceChain newBlocks chain = newBlocks) := by
  refine ⟨fun h => ?_, fun h => ?_⟩
  · simp only [ReplaceChain, gt_iff_lt]
    rw [if_neg (Nat.not_lt.mpr h)]
  · simp only [ReplaceChain, gt_iff_lt]
    rw [if_pos h]

/-- Witness for C5 at concrete inputs: an empty candidate is ignored, a
two-block candidate replaces the one-block initial chain. -/
theorem replaceChain_policy_witness :
    ReplaceChain [] (initialBlockchain "g") = initialBlockchain "g" ∧
    ReplaceChain [genesisBlock "g", genesisBlock "h"] (initialBlockchain "g") =
      [genesisBlock "g", genesisBlock "h"] :=
  ⟨(replaceChain_policy [] (initialBlockchain "g")).1 (by decide),
   (replaceChain_policy [genesisBlock "g", genesisBlock "h"] (initialBlockchain "g")).2
     (by decide)⟩

/-- C8: the chain right after initialisation consists of exactly one block,
the genesis block, and that block has index 0 and empty-string `PrevHash`. -/
theorem initialBlockchain_genesis (t : String) :
    (initialBlockchain t).length = 1 ∧
    initialBlockchain t = [genesisBlock t] ∧
    (genesisBlock t).Index = 0 ∧
    (genesisBlock t).PrevHash = "" :=
  ⟨rfl, rfl, rfl, rfl⟩

/-- C2: the append path of `WriteBlockchain` validates the candidate against
the current chain tail; a valid candidate is appended to the chain (and the
validation test is `true`), an invalid candidate leaves the chain unchanged
(and the validation test is `false`). -/
theorem tryAppend_correct (sha : String → String) (chain : List Block)
    (candidate prevBlock : Block) (h : chain.getLast? = some prevBlock) :
    (ValidateBlock sha prevBlock candidate = true →
        tryAppend sha chain candidate = (chain ++ [candidate], true)) ∧
    (ValidateBlock sha prevBlock candidate = false →
        tryAppend sha chain candidate = (chain, false)) := by
  refine ⟨fun hv => ?_, fun hv => ?_⟩
  · simp [tryAppend, h, hv, replaceChain_append_one]
  · simp [tryAppend, h, hv]

/-- Witness for C2 at concrete inputs: the freshly generated successor of
the genesis block is appended, while the genesis block itself (index 0, not
1) is rejected and the chain is unchanged. -/
theorem tryAppend_correct_witness :
    tryAppend (fun s => s) (initialBlockchain "g")
        (GenerateBlock (fun s => s) (genesisBlock "g") 100 "t").1 =
      (initialBlockchain "g" ++ [(GenerateBlock (fun s => s) (genesisBlock "g") 100 "t").1],
        true) ∧
    tryAppend (fun s => s) (initialBlockchain "g") (genesisBlock "g") =
      (initialBlockchain "g", false) :=
  ⟨(tryAppend_correct (fun s => s) (initialBlockchain "g")
      (GenerateBlock (fun s => s) (genesisBlock "g") 100 "t").1 (genesisBlock "g") rfl).1
      (by decide),
   (tryAppend_correct (fun s => s) (initialBlockchain "g")
      (genesisBlock "g") (genesisBlock "g") rfl).2 (by decide)⟩

/-- Appending a block that is a valid link after the current last element
preserves the chain invariant. -/
lemma chainInvariant_append (sha : String → String) (chain : List Block)
    (prevBlock b : Block) (hc : chain.getLast? = some prevBlock)
    (hinv : chainInvariant sha chain) (hlink : validLink sha prevBlock b) :
    chainInvariant sha (chain ++ [b]) := by
  rw [chainInvariant, List.chain'_append]
  refine ⟨hinv, List.chain'_singleton b, ?_⟩
  intro x hx y hy
  rw [hc, Option.mem_some_iff] at hx
  simp only [List.head?_cons, Option.mem_some_iff] at hy
  subst hx
  subst hy
  exact hlink

/-- C7: every chain state reachable from initialisation through the
program's operations (the `WriteBlockchain` append path, which invokes
`ReplaceChain`) satisfies the invariant: each non-genesis block `B` with
predecessor `P` has `B.Index = P.Index + 1`, `B.PrevHash = P.Hash` and
`B.Hash = GenerateHash B`. -/
theorem reachable_chainInvariant (sha : String → String) (chain : List Block)
    (h : Reachable sha chain) : chainInvariant sha chain := by
  induction h with
  | init t =>
      simp [chainInvariant, initialBlockchain]
  | step c c' d t resp hr heq ih =>
      rcases hc : c.getLast? with _ | prevBlock
      · rw [WriteBlockchain, hc] at heq
        exact absurd heq (by simp)
      · rw [WriteBlockchain, hc] at heq
        simp only [GenerateBlock] at heq
        rcases hv : ValidateBlock sha prevBlock
            (GenerateBlock sha prevBlock d t).1 with _ | _
        · rw [GenerateBlock] at hv
          simp only [hv, if_false, Bool.false_eq_true, Option.some.injEq,
            Prod.mk.injEq] at heq
          rw [← heq.1]
          exact ih
        · rw [GenerateBlock] at hv
          simp only [hv, if_true, Option.some.injEq, Prod.mk.injEq] at heq
          rw [← heq.1, replaceChain_append_one]
          have hlink := (validateBlock_eq_true_iff sha prevBlock
            (GenerateBlock sha prevBlock d t).1).mp (by rw [GenerateBlock]; exact hv)
          exact chainInvariant_append sha c prevBlock _ hc ih
            ⟨hlink.1, hlink.2.1, hlink.2.2.symm⟩

/-- Witness for C7 at a concrete input: the chain obtained from the initial
chain by one `WriteBlockchain` call with payload 100 (digest modelled by the
identity function, under which the new block's hash is the record string
`"\x01td"`). -/
theorem reachable_chainInvariant_witness :
    chainInvariant (fun s => s)
      [genesisBlock "g", Block.mk 1 "t" 100 "\x01td" ""] :=
  reachable_chainInvariant (fun s => s) _
    (Reachable.step (initialBlockchain "g")
      [genesisBlock "g", Block.mk 1 "t" 100 "\x01td" ""] 100 "t"
      (StatusCreated, HTTPBody.blockBody (Block.mk 1 "t" 100 "\x01td" ""))
      (Reachable.init "g") (by decide))

/-- C9: for every well-decoded POST body, `WriteBlockchain` responds with
status 201 (`StatusCreated`) and the serialized candidate block, regardless
of whether `ValidateBlock` accepted the candidate and the chain changed:
the response component of the result is the same in both cases. -/
theorem writeBlockchain_status_created (sha : String → String) (chain : List Block)
    (d : Int) (t : String) (prevBlock : Block) (h : chain.getLast? = some prevBlock) :
    (WriteBlockchain sha chain d t).map (fun r => r.2) =
      some (RespondWithJSON StatusCreated
        (HTTPBody.blockBody (GenerateBlock sha prevBlock d t).1)) := by
  rw [WriteBlockchain, h]
  rfl

/-- Witness for C9 at a concrete input: posting payload 100 against the
initial chain responds 201 with the generated block. -/
theorem writeBlockchain_status_created_witness :
    (WriteBlockchain (fun s => s) (initialBlockchain "g") 100 "t").map (fun r => r.2) =
      some (RespondWithJSON StatusCreated
        (HTTPBody.blockBody (GenerateBlock (fun s => s) (genesisBlock "g") 100 "t").1)) :=
  writeBlockchain_status_created (fun s => s) (initialBlockchain "g") 100 "t"
    (genesisBlock "g") rfl

/-- C10: the genesis block's `Hash` field is `""`, which differs from
`GenerateHash` applied to the genesis block's fields (for any digest that
never returns the empty string, as a hex-encoded SHA-256 never does); the
first appended block's `PrevHash` is the empty string, because
`GenerateBlock` copies the predecessor's stored `Hash`, and it still
validates, because `ValidateBlock` compares the candidate's `PrevHash` with
the predecessor's stored `Hash` only. -/
theorem genesis_hash_unverified (sha : String → String) (t t2 : String) (d : Int)
    (h : sha (goIntToString 0 ++ t ++ goIntToString 0 ++ "") ≠ "") :
    (genesisBlock t).Hash = "" ∧
    (genesisBlock t).Hash ≠ GenerateHash sha (genesisBlock t) ∧
    (GenerateBlock sha (genesisBlock t) d t2).1.PrevHash = "" ∧
    ValidateBlock sha (genesisBlock t) (GenerateBlock sha (genesisBlock t) d t2).1 = true :=
  ⟨rfl, fun hc => h hc.symm, rfl,
    (validateBlock_eq_true_iff sha (genesisBlock t)
      (GenerateBlock sha (genesisBlock t) d t2).1).mpr ⟨rfl, rfl, rfl⟩⟩

/-- Witness for C10 at a concrete input, with a digest that returns a fixed
non-empty string. -/
theorem genesis_hash_unverified_witness :
    (genesisBlock "g").Hash = "" ∧
    (genesisBlock "g").Hash ≠ GenerateHash (fun _ => "x") (genesisBlock "g") ∧
    (GenerateBlock (fun _ => "x") (genesisBlock "g") 100 "t").1.PrevHash = "" ∧
    ValidateBlock (fun _ => "x") (genesisBlock "g")
      (GenerateBlock (fun _ => "x") (genesisBlock "g") 100 "t").1 = true :=
  genesis_hash_unverified (fun _ => "x") "g" "t" 100 (by decide)

/-- C4 is violated by the code: a block validly appended with payload `-1`
can have its `Data` field tampered to `-2` and still validate, because Go's
`string(int)` conversion in `GenerateHash` maps every integer that is not a
valid Unicode code point (here both `-1` and `-2`) to the replacement
character U+FFFD, so the hash input `record` is unchanged — demonstrated
here with the identity in place of the digest: the records of the original
and the tampered block are literally equal, so no digest can tell them
apart. -/
theorem tamper_data_undetected :
    ValidateBlock (fun s => s) (genesisBlock "g")
      (GenerateBlock (fun s => s) (genesisBlock "g") (-1) "t").1 = true ∧
    ((GenerateBlock (fun s => s) (genesisBlock "g") (-1) "t").1.Data ≠ (-2 : Int)) ∧
    GenerateHash (fun s => s)
        { (GenerateBlock (fun s => s) (genesisBlock "g") (-1) "t").1 with Data := -2 } =
      GenerateHash (fun s => s) (GenerateBlock (fun s => s) (genesisBlock "g") (-1) "t").1 ∧
    ValidateBlock (fun s => s) (genesisBlock "g")
      { (GenerateBlock (fun s => s) (genesisBlock "g") (-1) "t").1 with Data := -2 } = true := by
  decide
